import Mathlib

/-!
# Verification of the slash-command suggestion subsystem

A shallow embedding of the slash-command popup controller of this
repository: the candidate filter (`SlashCommandExtension`'s suggestion
`items` function), the static command registry (`slashCommands.ts`), the
popup list component (`SlashCommandsList.tsx`: `selectedIndex` state,
`selectItem`, the imperative `onKeyDown` handler and the reset effect),
and the suggestion `render` lifecycle handlers (`onStart`, `onUpdate`,
`onKeyDown`, `onExit`).

Strings are modelled as lists of characters; the JavaScript string
operations `toLowerCase`, `startsWith` and `includes` are modelled by
`lower`, `startsWithStr` and `includesStr`.  JavaScript index arithmetic
that can produce `NaN` (modulo by zero on an empty candidate list) is
modelled with `Option Nat`, `none` standing for `NaN`.
-/

set_option autoImplicit false

/-- Character-list model of a JavaScript string. -/
abbrev Str := List Char

/-- `s.toLowerCase()` on the character-list model. -/
def lower (s : Str) : Str := s.map Char.toLower

/-- `s.startsWith(p)` : `p` is a prefix of `s`. -/
def startsWithStr (s p : Str) : Bool := List.isPrefixOf p s

/-- `s.includes(sub)` : `sub` occurs contiguously inside `s`. -/
def includesStr : Str → Str → Bool
  | s, sub =>
    match s with
    | [] => sub.isEmpty
    | _ :: t => List.isPrefixOf sub s || includesStr t sub

/-- Document range recorded by the suggestion utility:
`{ from: start, to: stop }` delimiting the trigger character plus query. -/
structure Range' where
  start : Nat
  stop : Nat
deriving DecidableEq

/-- Block type of the current node of the text surface. -/
inductive BlockType
  | paragraph
  | heading (level : Nat)
  | bulletList
  | orderedList
  | callout
deriving DecidableEq

/-- A primitive editor operation appearing in a Tiptap command chain
(`editor.chain(). ... .run()`). -/
inductive EditorOp
  | focus
  | deleteRange (r : Range')
  | setParagraph
  | toggleHeading (level : Nat)
  | toggleBulletList
  | toggleOrderedList
  | setCallout
deriving DecidableEq

/-- Icon handles of the registry entries (opaque presentation data). -/
inductive Icon
  | pilcrow
  | heading1
  | heading2
  | heading3
  | list
  | listOrdered
  | megaphone
deriving DecidableEq

/-- An entry of the static slash-command registry (`SlashCommandItem` in
`slashCommands.ts`).  The `command` field models the entry's
`command: ({ editor, range }) => ...` callback as the chain of primitive
editor operations it runs, as a function of the optional `range`. -/
structure SlashCommandItem where
  title : Str
  description : Str
  icon : Icon
  command : Option Range' → List EditorOp

/-- `Paragraph` entry: `editor.chain().focus().setParagraph().run()`. -/
def paragraphItem : SlashCommandItem :=
  { title := "Paragraph".toList
    description := "Normal text style".toList
    icon := .pilcrow
    command := fun _ => [.focus, .setParagraph] }

/-- `Heading 1` entry: `editor.chain().focus().toggleHeading({ level: 1 }).run()`. -/
def heading1Item : SlashCommandItem :=
  { title := "Heading 1".toList
    description := "Large section heading".toList
    icon := .heading1
    command := fun _ => [.focus, .toggleHeading 1] }

/-- `Heading 2` entry: `editor.chain().focus().toggleHeading({ level: 2 }).run()`. -/
def heading2Item : SlashCommandItem :=
  { title := "Heading 2".toList
    description := "Medium section heading".toList
    icon := .heading2
    command := fun _ => [.focus, .toggleHeading 2] }

/-- `Heading 3` entry: `editor.chain().focus().toggleHeading({ level: 3 }).run()`. -/
def heading3Item : SlashCommandItem :=
  { title := "Heading 3".toList
    description := "Small section heading".toList
    icon := .heading3
    command := fun _ => [.focus, .toggleHeading 3] }

/-- `Bullet List` entry: `editor.chain().focus().toggleBulletList().run()`. -/
def bulletListItem : SlashCommandItem :=
  { title := "Bullet List".toList
    description := "Create a simple bullet list".toList
    icon := .list
    command := fun _ => [.focus, .toggleBulletList] }

/-- `Ordered List` entry: `editor.chain().focus().toggleOrderedList().run()`. -/
def orderedListItem : SlashCommandItem :=
  { title := "Ordered List".toList
    description := "Create a list with numbering".toList
    icon := .listOrdered
    command := fun _ => [.focus, .toggleOrderedList] }

/-- `Callout` entry: deletes the suggestion range when one is provided,
then runs `setCallout()` (`deleteRange(range).setCallout()`). -/
def calloutItem : SlashCommandItem :=
  { title := "Callout".toList
    description := "Create a callout block with icon and background.".toList
    icon := .megaphone
    command := fun r =>
      match r with
      | some rr => [.focus, .deleteRange rr, .setCallout]
      | none => [.focus, .setCallout] }

/-- The static slash-command registry (`slashCommands` in
`slashCommands.ts`, Callout variant). -/
def slashCommands : List SlashCommandItem :=
  [paragraphItem, heading1Item, heading2Item, heading3Item,
   bulletListItem, orderedListItem, calloutItem]

/-- The match predicate of the suggestion `items` function:
`item.title.toLowerCase().startsWith(query.toLowerCase()) ||
 item.description.toLowerCase().includes(query.toLowerCase())`. -/
def itemMatches (query : Str) (item : SlashCommandItem) : Bool :=
  startsWithStr (lower item.title) (lower query) ||
  includesStr (lower item.description) (lower query)

/-- The candidate filter over an arbitrary registry:
`registry.filter(...).slice(0, 10)`. -/
def filterItems (registry : List SlashCommandItem) (query : Str) :
    List SlashCommandItem :=
  (registry.filter (itemMatches query)).take 10

/-- The suggestion `items` function of the `SlashCommand` extension,
applied to the static registry. -/
def suggestionItems (query : Str) : List SlashCommandItem :=
  filterItems slashCommands query

/-- Keyboard keys routed by the suggestion `onKeyDown` handlers. -/
inductive Key
  | arrowUp
  | arrowDown
  | enter
  | escape
  | other
deriving DecidableEq

/-- React state of the `SlashCommandsList` component: the `items` prop
and the `selectedIndex` `useState` cell.  `selectedIndex` is an
`Option Nat`: `none` models the JavaScript `NaN` produced by a modulo
by zero on an empty item list. -/
structure ListState where
  items : List SlashCommandItem
  selectedIndex : Option Nat

/-- `(prevIndex + 1) % items.length` with JavaScript number semantics:
modulo by zero, or arithmetic on `NaN`, yields `NaN` (`none`). -/
def jsSuccMod (idx : Option Nat) (len : Nat) : Option Nat :=
  match idx with
  | none => none
  | some i => if len = 0 then none else some ((i + 1) % len)

/-- `(prevIndex + items.length - 1) % items.length` with JavaScript
number semantics: modulo by zero, or arithmetic on `NaN`, yields `NaN`. -/
def jsPredMod (idx : Option Nat) (len : Nat) : Option Nat :=
  match idx with
  | none => none
  | some i => if len = 0 then none else some ((i + len - 1) % len)

namespace SlashCommandsList

/-- `selectItem`: `const item = items[index]; if (item) { command(item) }`.
Returns the item whose command is invoked, or `none` when the index is
out of bounds (or `NaN`) and nothing happens. -/
def selectItem (s : ListState) (index : Option Nat) : Option SlashCommandItem :=
  match index with
  | none => none
  | some i => s.items[i]?

/-- The imperative `onKeyDown` handler exposed through the component
ref.  Returns (handled, new state, item whose command is invoked). -/
def onKeyDown (s : ListState) (k : Key) :
    Bool × ListState × Option SlashCommandItem :=
  match k with
  | .arrowUp =>
    (true, { s with selectedIndex := jsPredMod s.selectedIndex s.items.length }, none)
  | .arrowDown =>
    (true, { s with selectedIndex := jsSuccMod s.selectedIndex s.items.length }, none)
  | .enter => (true, s, selectItem s s.selectedIndex)
  | _ => (false, s, none)

/-- The render body: `null` when `items` is empty, otherwise one entry
per item, paired with whether it is the highlighted one
(`index === selectedIndex`; a `NaN` index highlights nothing). -/
def renderList (s : ListState) : Option (List (Str × Bool)) :=
  if s.items.isEmpty then none
  else some (s.items.enum.map fun p => (p.2.title, s.selectedIndex == some p.1))

end SlashCommandsList

/-- An event observed by the mounted `SlashCommandsList` component:
either new `items` props (a candidate-list recomputation, which the
`useEffect` on `[items]` follows by `setSelectedIndex(0)`), or a key
forwarded by the suggestion utility. -/
inductive ListEv
  | update (items : List SlashCommandItem)
  | press (k : Key)

/-- One component step: `update` installs the new items and resets
`selectedIndex` to 0 (the `useEffect`); `press` applies the state part
of the `onKeyDown` handler. -/
def applyListEv (s : ListState) : ListEv → ListState
  | .update its => { items := its, selectedIndex := some 0 }
  | .press k => (SlashCommandsList.onKeyDown s k).2.1

/-- Folding a sequence of component events from a state. -/
def runListEvs (s : ListState) : List ListEv → ListState
  | [] => s
  | e :: es => runListEvs (applyListEv s e) es

/-- Mount state of the component: initial items, `useState(0)`. -/
def initList (its : List SlashCommandItem) : ListState :=
  { items := its, selectedIndex := some 0 }

/-- The highlighted-index invariant: whenever the candidate list is
non-empty, `selectedIndex` is a genuine number (not `NaN`) in bounds. -/
def IndexValid (s : ListState) : Prop :=
  s.items ≠ [] → ∃ i, s.selectedIndex = some i ∧ i < s.items.length

/-- The state part of one ArrowDown press. -/
def arrowDownStep (s : ListState) : ListState :=
  (SlashCommandsList.onKeyDown s .arrowDown).2.1

/-- Modelled from the spec: §6 — the external text surface, reduced to
the observables the claims speak about: flattened document text, caret
offset, and the block type of the current node. -/
structure Surface where
  content : Str
  caret : Nat
  block : BlockType
deriving DecidableEq

/-- Modelled from the spec: §6 — the external document engine's
primitive commands. `deleteRange` removes the slice `[start, stop)` and
puts the caret at `start`; the structural commands set or toggle the
block type; `focus` does not touch the document. -/
def applyOp (s : Surface) : EditorOp → Surface
  | .focus => s
  | .deleteRange r =>
    { s with content := s.content.take r.start ++ s.content.drop r.stop
             caret := r.start }
  | .setParagraph => { s with block := .paragraph }
  | .toggleHeading n =>
    { s with block := if s.block = .heading n then .paragraph else .heading n }
  | .toggleBulletList =>
    { s with block := if s.block = .bulletList then .paragraph else .bulletList }
  | .toggleOrderedList =>
    { s with block := if s.block = .orderedList then .paragraph else .orderedList }
  | .setCallout =>
    { s with block := if s.block = .callout then .paragraph else .callout }

/-- Running a command chain (`editor.chain(). ... .run()`). -/
def runOps (s : Surface) : List EditorOp → Surface
  | [] => s
  | op :: ops => runOps (applyOp s op) ops

/-- Modelled from the spec: §6 — the external surface's handling of an
ordinary character keystroke: insert at the caret, advance the caret. -/
def insertChar (s : Surface) (c : Char) : Surface :=
  { s with content := s.content.take s.caret ++ c :: s.content.drop s.caret
           caret := s.caret + 1 }

/-- A caret anchor rectangle (opaque screen coordinates). -/
structure Rect where
  x : Int
  y : Int
deriving DecidableEq

/-- The tippy popup resource: its current anchor and whether it is
showing. -/
structure PopupState where
  anchor : Rect
  visible : Bool
deriving DecidableEq

/-- State owned by one `render()` closure of the suggestion options:
the mounted `SlashCommandsList` (`component`) and the tippy instance
(`popup`); `popup = none` models the `popup` variable never having been
assigned (it is only assigned in `onStart` after the `clientRect`
check). -/
structure RenderState where
  listState : ListState
  popup : Option PopupState

/-- The crash observable: a JavaScript `TypeError` from dereferencing
the unassigned `popup` variable (`popup[0]` when `popup` is
`undefined`). -/
inductive Crash
  | popupUndefined
deriving DecidableEq

/-- `onStart`: mounts the component with the initial props, then — only
if a caret rectangle is available — creates the popup
(`showOnCreate: true`). -/
def renderOnStart (its : List SlashCommandItem) (clientRect : Option Rect) :
    RenderState :=
  let ls : ListState := { items := its, selectedIndex := some 0 }
  match clientRect with
  | none => { listState := ls, popup := none }
  | some r => { listState := ls, popup := some { anchor := r, visible := true } }

/-- `onUpdate`: `component.updateProps(props)` (new items, effect resets
the index), then — only if a caret rectangle is available —
`popup[0].setProps(...)`, which dereferences the unassigned `popup`
when `onStart` skipped its creation. -/
def renderOnUpdate (rs : RenderState) (its : List SlashCommandItem)
    (clientRect : Option Rect) : Except Crash RenderState :=
  let ls : ListState := { items := its, selectedIndex := some 0 }
  match clientRect with
  | none => .ok { rs with listState := ls }
  | some r =>
    match rs.popup with
    | none => .error .popupUndefined
    | some p =>
      .ok { listState := ls, popup := some { anchor := r, visible := p.visible } }

/-- The `render().onKeyDown` handler: Escape hides the popup
(`popup[0].hide()`, dereferencing the unassigned `popup` if `onStart`
never created it) and is consumed; every other key is delegated to the
list component's ref handler. -/
def renderOnKeyDown (rs : RenderState) (k : Key) :
    Except Crash (Bool × RenderState × Option SlashCommandItem) :=
  match k with
  | .escape =>
    match rs.popup with
    | none => .error .popupUndefined
    | some p =>
      .ok (true, { rs with popup := some { p with visible := false } }, none)
  | _ =>
    let r := SlashCommandsList.onKeyDown rs.listState k
    .ok (r.1, { rs with listState := r.2.1 }, r.2.2)

/-- One open suggestion session together with the text surface: the
surface, the session lifecycle owned by the external suggestion utility
(modelled from the spec, §4.1/§2: open flag, trigger position, query),
the `render()` closure state, and a log of the titles of the invoked
commands. -/
structure SessionState where
  surface : Surface
  sessionOpen : Bool
  triggerPos : Nat
  query : Str
  render : RenderState
  invoked : List Str

/-- The range recorded for the session: trigger character plus query. -/
def suggestionRange (s : SessionState) : Range' :=
  { start := s.triggerPos, stop := s.triggerPos + 1 + s.query.length }

/-- An input event hitting the editor while the suggestion plugin is
installed. -/
inductive SessionEv
  | typeTrigger (rect : Option Rect)
  | typeChar (c : Char) (rect : Option Rect)
  | keydown (k : Key)

/-- Modelled from the spec: §4.1/§2 — the external suggestion utility
drives the repository's handlers: typing the trigger inserts it and
fires `onStart` with `filter(registry, "")`; a further character
extends the query and fires `onUpdate` with the recomputed candidates;
keys go through `render().onKeyDown`, a committed candidate runs
`props.command({ editor, range })` (the suggestion `command` option)
and closes the session, and a consumed Escape closes it destructively. -/
def stepEv (s : SessionState) : SessionEv → Except Crash SessionState
  | .typeTrigger rect =>
    .ok { surface := insertChar s.surface '/'
          sessionOpen := true
          triggerPos := s.surface.caret
          query := []
          render := renderOnStart (suggestionItems []) rect
          invoked := s.invoked }
  | .typeChar c rect =>
    if s.sessionOpen then
      match renderOnUpdate s.render (suggestionItems (s.query ++ [c])) rect with
      | .error e => .error e
      | .ok rs =>
        .ok { s with surface := insertChar s.surface c
                     query := s.query ++ [c]
                     render := rs }
    else
      .ok { s with surface := insertChar s.surface c }
  | .keydown k =>
    if s.sessionOpen then
      match renderOnKeyDown s.render k with
      | .error e => .error e
      | .ok (_, rs, sel) =>
        match sel with
        | some item =>
          .ok { s with surface := runOps s.surface (item.command (some (suggestionRange s)))
                       sessionOpen := false
                       render := rs
                       invoked := s.invoked ++ [item.title] }
        | none =>
          if k = .escape then
            .ok { s with sessionOpen := false, render := rs }
          else
            .ok { s with render := rs }
    else
      .ok s

/-- Folding a sequence of events, stopping at the first crash. -/
def runEvents (s : SessionState) : List SessionEv → Except Crash SessionState
  | [] => .ok s
  | e :: es =>
    match stepEv s e with
    | .error er => .error er
    | .ok s' => runEvents s' es

/-- A quiescent editor before any session: given surface, no session. -/
def initSession (srf : Surface) : SessionState :=
  { surface := srf
    sessionOpen := false
    triggerPos := 0
    query := []
    render := { listState := { items := [], selectedIndex := some 0 }, popup := none }
    invoked := [] }

/-- A fixed caret anchor rectangle for concrete runs. -/
def rect0 : Rect := { x := 0, y := 0 }

/-- An open session after typing `/xyz` (no matching command): empty
candidate list, popup created. -/
def c4WitState : SessionState :=
  { surface := { content := "/xyz".toList, caret := 4, block := .paragraph }
    sessionOpen := true
    triggerPos := 0
    query := "xyz".toList
    render := { listState := { items := suggestionItems "xyz".toList, selectedIndex := some 0 }
                popup := some { anchor := rect0, visible := true } }
    invoked := [] }

/-- An open session just after typing the trigger at the end of `ab`. -/
def c8WitState : SessionState :=
  { surface := { content := "ab/".toList, caret := 3, block := .paragraph }
    sessionOpen := true
    triggerPos := 2
    query := []
    render := { listState := { items := suggestionItems [], selectedIndex := some 0 }
                popup := some { anchor := rect0, visible := true } }
    invoked := [] }

theorem itemMatches_nil (c : SlashCommandItem) : itemMatches [] c = true := by
  simp [itemMatches, startsWithStr, lower, List.isPrefixOf]

theorem filterItems_nil (R : List SlashCommandItem) :
    filterItems R [] = R.take 10 := by
  unfold filterItems
  rw [List.filter_eq_self.mpr (fun c _ => itemMatches_nil c)]

/-- **C1.** For every query, the candidate filter returns an
order-preserving selection from the registry of commands matching the
query (title prefix or description substring, case-insensitive), capped
at 10; whenever at most 10 commands match it returns exactly the
matching commands, and for the empty query it returns the first 10
registry commands unchanged in order; the extension's `items` function is
this filter applied to the static registry. -/
theorem c1_filter_exact (R : List SlashCommandItem) (q : Str) :
    List.Sublist (filterItems R q) R
    ∧ (∀ c ∈ filterItems R q, itemMatches q c = true)
    ∧ (filterItems R q).length ≤ 10
    ∧ ((R.filter (itemMatches q)).length ≤ 10 →
        filterItems R q = R.filter (itemMatches q))
    ∧ filterItems R [] = R.take 10
    ∧ suggestionItems q = filterItems slashCommands q
    ∧ suggestionItems [] = slashCommands.take 10 := by
  refine ⟨?_, ?_, ?_, ?_, filterItems_nil R, rfl, filterItems_nil slashCommands⟩
  · exact (List.take_sublist 10 _).trans (List.filter_sublist R)
  · intro c hc
    exact List.of_mem_filter ((List.take_sublist 10 _).subset hc)
  · exact List.length_take_le 10 _
  · intro h
    exact List.take_of_length_le h

/-- Witness for `c1_filter_exact` at the static registry: the inner
implication instantiated where at most 10 commands match, and the
empty-query clause. -/
theorem c1_filter_exact_witness :
    filterItems slashCommands ['h'] =
      slashCommands.filter (itemMatches ['h'])
    ∧ filterItems slashCommands [] = slashCommands.take 10 := by
  refine ⟨(c1_filter_exact slashCommands ['h']).2.2.2.1 ?_,
    (c1_filter_exact slashCommands []).2.2.2.2.1⟩
  decide

theorem indexValid_applyListEv {s : ListState} (h : IndexValid s) (e : ListEv) :
    IndexValid (applyListEv s e) := by
  cases e with
  | update its =>
    intro hne
    exact ⟨0, rfl, List.length_pos.mpr hne⟩
  | press k =>
    cases k with
    | arrowUp =>
      intro hne
      obtain ⟨i, hi, hlt⟩ := h hne
      have hlen : s.items.length ≠ 0 := by
        simpa [List.length_eq_zero] using hne
      refine ⟨(i + s.items.length - 1) % s.items.length, ?_, ?_⟩
      · simp [applyListEv, SlashCommandsList.onKeyDown, jsPredMod, hi, hlen]
      · exact Nat.mod_lt _ (Nat.pos_of_ne_zero hlen)
    | arrowDown =>
      intro hne
      obtain ⟨i, hi, hlt⟩ := h hne
      have hlen : s.items.length ≠ 0 := by
        simpa [List.length_eq_zero] using hne
      refine ⟨(i + 1) % s.items.length, ?_, ?_⟩
      · simp [applyListEv, SlashCommandsList.onKeyDown, jsSuccMod, hi, hlen]
      · exact Nat.mod_lt _ (Nat.pos_of_ne_zero hlen)
    | enter => exact h
    | escape => exact h
    | other => exact h

theorem indexValid_runListEvs {s : ListState} (h : IndexValid s) :
    ∀ evs : List ListEv, IndexValid (runListEvs s evs)
  | [] => h
  | e :: es => indexValid_runListEvs (indexValid_applyListEv h e) es

/-- **C3.** In every state reachable by the popup list component from a
mount, a non-empty candidate list implies `selectedIndex` is a number
with `0 ≤ selectedIndex < length(items)`; and every candidate-list
recomputation (an `update` event) resets `selectedIndex` to 0 before any
further key is handled. -/
theorem c3_index_invariant (its : List SlashCommandItem) (evs : List ListEv) :
    IndexValid (runListEvs (initList its) evs)
    ∧ ∀ (s : ListState) (its' : List SlashCommandItem),
        (applyListEv s (.update its')).selectedIndex = some 0 := by
  refine ⟨indexValid_runListEvs ?_ evs, fun s its' => rfl⟩
  intro hne
  exact ⟨0, rfl, List.length_pos.mpr hne⟩

/-- Witness for `c3_index_invariant`: after mounting on the full
registry and pressing ArrowDown once, the index is still a number in
bounds. -/
theorem c3_index_invariant_witness :
    ∃ i, (runListEvs (initList slashCommands) [.press .arrowDown]).selectedIndex = some i
      ∧ i < (runListEvs (initList slashCommands) [.press .arrowDown]).items.length :=
  (c3_index_invariant slashCommands [.press .arrowDown]).1
    (fun h => absurd (congrArg List.length h) (by decide))

/-- **C5 (counterexample).** ArrowDown is handled (consumed) by
`onKeyDown` even when the candidate list is empty, and the index
computation modulo the zero length is still performed, producing `NaN`
(`none`) — refuting "only handled when `length(candidates) > 0`, so with
an empty candidate list the modulo computation is never performed". -/
theorem c5_counterexample :
    (SlashCommandsList.onKeyDown { items := [], selectedIndex := some 0 } .arrowDown).1 = true
    ∧ ({ items := [], selectedIndex := some 0 } : ListState).items.length = 0
    ∧ (SlashCommandsList.onKeyDown { items := [], selectedIndex := some 0 }
        .arrowDown).2.1.selectedIndex = none :=
  ⟨rfl, rfl, rfl⟩

/-- **C5 (amended).** ArrowDown and ArrowUp are always fully consumed
(handled, invoking no command, leaving the candidate list unchanged);
on a numeric index and a non-empty list they step the index to
`(i + 1) % length` and `(i + length - 1) % length` respectively; there
is no emptiness guard: on an empty list the modulo-by-zero computation
is still performed and yields `NaN` (`none`). -/
theorem c5_arrows_unguarded (s : ListState) :
    (SlashCommandsList.onKeyDown s .arrowDown).1 = true
    ∧ (SlashCommandsList.onKeyDown s .arrowUp).1 = true
    ∧ (SlashCommandsList.onKeyDown s .arrowDown).2.2 = none
    ∧ (SlashCommandsList.onKeyDown s .arrowUp).2.2 = none
    ∧ (SlashCommandsList.onKeyDown s .arrowDown).2.1.items = s.items
    ∧ (SlashCommandsList.onKeyDown s .arrowUp).2.1.items = s.items
    ∧ (∀ i, s.selectedIndex = some i → 0 < s.items.length →
        (SlashCommandsList.onKeyDown s .arrowDown).2.1.selectedIndex
          = some ((i + 1) % s.items.length)
        ∧ (SlashCommandsList.onKeyDown s .arrowUp).2.1.selectedIndex
          = some ((i + s.items.length - 1) % s.items.length))
    ∧ (s.items.length = 0 →
        (SlashCommandsList.onKeyDown s .arrowDown).2.1.selectedIndex = none
        ∧ (SlashCommandsList.onKeyDown s .arrowUp).2.1.selectedIndex = none) := by
  refine ⟨rfl, rfl, rfl, rfl, rfl, rfl, ?_, ?_⟩
  · intro i hi hlen
    constructor
    · simp [SlashCommandsList.onKeyDown, jsSuccMod, hi, Nat.pos_iff_ne_zero.mp hlen]
    · simp [SlashCommandsList.onKeyDown, jsPredMod, hi, Nat.pos_iff_ne_zero.mp hlen]
  · intro hlen
    constructor
    · cases hi : s.selectedIndex <;>
        simp [SlashCommandsList.onKeyDown, jsSuccMod, hi, hlen]
    · cases hi : s.selectedIndex <;>
        simp [SlashCommandsList.onKeyDown, jsPredMod, hi, hlen]

/-- Witness for `c5_arrows_unguarded`: on the mounted full registry
(index 0, seven items) ArrowDown steps to `(0+1) % 7` and ArrowUp to
`(0+7-1) % 7`. -/
theorem c5_arrows_unguarded_witness :
    (SlashCommandsList.onKeyDown (initList slashCommands) .arrowDown).2.1.selectedIndex
      = some ((0 + 1) % (initList slashCommands).items.length)
    ∧ (SlashCommandsList.onKeyDown (initList slashCommands) .arrowUp).2.1.selectedIndex
      = some ((0 + (initList slashCommands).items.length - 1)
          % (initList slashCommands).items.length) :=
  (c5_arrows_unguarded (initList slashCommands)).2.2.2.2.2.2.1 0 rfl (by decide)

theorem arrowDownStep_iterate (s : ListState) (i : Nat) (hi : s.selectedIndex = some i)
    (hbound : i < s.items.length) :
    ∀ n : Nat, (arrowDownStep^[n] s).items = s.items
      ∧ (arrowDownStep^[n] s).selectedIndex = some ((i + n) % s.items.length)
  | 0 => by
    simp [hi, Nat.mod_eq_of_lt hbound]
  | n + 1 => by
    obtain ⟨hit, hsel⟩ := arrowDownStep_iterate s i hi hbound n
    have hlen : s.items.length ≠ 0 := Nat.pos_iff_ne_zero.mp (Nat.lt_of_le_of_lt (Nat.zero_le i) hbound)
    rw [Function.iterate_succ_apply']
    constructor
    · simp [arrowDownStep, SlashCommandsList.onKeyDown, hit]
    · simp [arrowDownStep, SlashCommandsList.onKeyDown, jsSuccMod, hit, hsel, hlen]
      rw [Nat.add_assoc]

/-- **C6.** Wrap-around law: from any valid highlighted index, pressing
ArrowDown `length(candidates)` times returns the highlighted index (and
the candidate list) to its starting value. -/
theorem c6_wraparound (s : ListState) (i : Nat) (hi : s.selectedIndex = some i)
    (hbound : i < s.items.length) :
    (arrowDownStep^[s.items.length] s).selectedIndex = s.selectedIndex
    ∧ (arrowDownStep^[s.items.length] s).items = s.items := by
  obtain ⟨hit, hsel⟩ := arrowDownStep_iterate s i hi hbound s.items.length
  refine ⟨?_, hit⟩
  rw [hsel, hi, Nat.add_mod_right, Nat.mod_eq_of_lt hbound]

/-- Witness for `c6_wraparound`: starting from index 2 on the
seven-entry registry, seven ArrowDown presses return the index to 2. -/
theorem c6_wraparound_witness :
    (arrowDownStep^[({ items := slashCommands, selectedIndex := some 2 } : ListState).items.length]
        { items := slashCommands, selectedIndex := some 2 }).selectedIndex
      = ({ items := slashCommands, selectedIndex := some 2 } : ListState).selectedIndex :=
  (c6_wraparound { items := slashCommands, selectedIndex := some 2 } 2 rfl (by decide)).1

/-- **C10.** Committing at an index (Enter on the highlighted index, or
a click on the i-th entry, both of which run `selectItem`) invokes the
i-th candidate exactly when it exists: `selectItem` reads `items[i]`,
returns `none` (no invocation, no error) for every out-of-bounds index,
and any invoked command comes from an in-bounds index. -/
theorem c10_select_in_bounds (s : ListState) (i : Nat) :
    SlashCommandsList.selectItem s (some i) = s.items[i]?
    ∧ (SlashCommandsList.onKeyDown s .enter).2.2
        = SlashCommandsList.selectItem s s.selectedIndex
    ∧ (s.items.length ≤ i → SlashCommandsList.selectItem s (some i) = none)
    ∧ (∀ c, SlashCommandsList.selectItem s (some i) = some c → i < s.items.length) := by
  refine ⟨rfl, rfl, ?_, ?_⟩
  · intro h
    simp [SlashCommandsList.selectItem, List.getElem?_eq_none h]
  · intro c hc
    by_contra hnot
    rw [SlashCommandsList.selectItem,
      List.getElem?_eq_none (Nat.le_of_not_lt hnot)] at hc
    exact Option.noConfusion hc

/-- Witness for `c10_select_in_bounds`: committing at stale index 7 on
the seven-entry registry invokes nothing. -/
theorem c10_select_in_bounds_witness :
    SlashCommandsList.selectItem
      { items := slashCommands, selectedIndex := some 0 } (some 7) = none :=
  (c10_select_in_bounds { items := slashCommands, selectedIndex := some 0 } 7).2.2.1
    (by decide)

/-- **C2 (code evaluated at the failing input).** Typing `/h` and
committing `Heading 3` (ArrowDown, ArrowDown, Enter) applies the
Heading-3 structural edit but does not delete the recorded range: the
`Heading 3` entry's command chain is `focus().toggleHeading({level: 3})`
with no `deleteRange`, so the text `/h` stays in the document. -/
theorem c2_heading3_keeps_trigger_text :
    (runEvents (initSession { content := [], caret := 0, block := .paragraph })
        [.typeTrigger (some rect0), .typeChar 'h' (some rect0),
         .keydown .arrowDown, .keydown .arrowDown, .keydown .enter]).map
      (fun s => (s.surface.content, s.surface.block, s.invoked, s.sessionOpen))
      = .ok ("/h".toList, .heading 3, ["Heading 3".toList], false)
    ∧ heading3Item.command (some { start := 0, stop := 2 })
        = [.focus, .toggleHeading 3] :=
  ⟨rfl, rfl⟩

/-- **C4.** With the session open on an empty candidate list, the popup
renders nothing, Enter is a complete no-op (state unchanged, session
still open), and typing any further character keeps the session open,
invokes nothing, and recomputes the candidate list for the grown query. -/
theorem c4_empty_list_stays_open (s : SessionState)
    (hopen : s.sessionOpen = true) (hempty : s.render.listState.items = []) :
    SlashCommandsList.renderList s.render.listState = none
    ∧ stepEv s (.keydown .enter) = .ok s
    ∧ ∀ (c : Char) (rect : Option Rect),
        rect = none ∨ s.render.popup.isSome = true →
        ∃ s', stepEv s (.typeChar c rect) = .ok s'
          ∧ s'.sessionOpen = true
          ∧ s'.invoked = s.invoked
          ∧ s'.render.listState.items = suggestionItems (s.query ++ [c]) := by
  obtain ⟨srf, so, tp, q, ⟨ls0, pp⟩, inv⟩ := s
  simp only at hopen hempty ⊢
  subst hopen
  have hsel : SlashCommandsList.selectItem ls0 ls0.selectedIndex = none := by
    cases hidx : ls0.selectedIndex with
    | none => rfl
    | some i => simp [SlashCommandsList.selectItem, hempty]
  refine ⟨by simp [SlashCommandsList.renderList, hempty], ?_, ?_⟩
  · simp [stepEv, renderOnKeyDown, SlashCommandsList.onKeyDown, hsel]
  · intro c rect hrect
    cases hrect with
    | inl h =>
      subst h
      exact ⟨_, rfl, rfl, rfl, rfl⟩
    | inr h =>
      obtain ⟨p, hp⟩ := Option.isSome_iff_exists.mp h
      cases rect with
      | none => exact ⟨_, rfl, rfl, rfl, rfl⟩
      | some r =>
        subst hp
        exact ⟨_, rfl, rfl, rfl, rfl⟩

/-- Witness for `c4_empty_list_stays_open`: in the `/xyz` session,
Enter leaves the state untouched, and typing `q` keeps the session open
with the list recomputed for `xyzq`. -/
theorem c4_empty_witness :
    stepEv c4WitState (.keydown .enter) = .ok c4WitState
    ∧ ∃ s', stepEv c4WitState (.typeChar 'q' (some rect0)) = .ok s'
        ∧ s'.sessionOpen = true
        ∧ s'.invoked = c4WitState.invoked
        ∧ s'.render.listState.items = suggestionItems ("xyz".toList ++ ['q']) := by
  have h := c4_empty_list_stays_open c4WitState rfl rfl
  exact ⟨h.2.1, h.2.2 'q' (some rect0) (Or.inr rfl)⟩

/-- **C7.** With an empty candidate list, Enter is a no-op at both
levels: the list component handles it without invoking any command and
without changing state, and the `render().onKeyDown` handler consumes
it (returns `true`, so it is not forwarded to the text surface) without
raising any error. -/
theorem c7_enter_noop_on_empty (rs : RenderState) (h : rs.listState.items = []) :
    SlashCommandsList.onKeyDown rs.listState .enter = (true, rs.listState, none)
    ∧ renderOnKeyDown rs .enter = .ok (true, rs, none) := by
  have hsel : SlashCommandsList.selectItem rs.listState
      rs.listState.selectedIndex = none := by
    cases hidx : rs.listState.selectedIndex with
    | none => rfl
    | some i => simp [SlashCommandsList.selectItem, h]
  constructor
  · simp [SlashCommandsList.onKeyDown, hsel]
  · simp [renderOnKeyDown, SlashCommandsList.onKeyDown, hsel]

/-- Witness for `c7_enter_noop_on_empty` at a concrete empty-list
render state. -/
theorem c7_enter_noop_on_empty_witness :
    renderOnKeyDown
        { listState := { items := [], selectedIndex := some 0 }, popup := none } .enter
      = .ok (true,
          { listState := { items := [], selectedIndex := some 0 }, popup := none },
          none) :=
  (c7_enter_noop_on_empty
    { listState := { items := [], selectedIndex := some 0 }, popup := none } rfl).2

/-- **C8 (counterexample).** Typing the trigger after `ab` and pressing
Escape closes the session without invoking any candidate, but the text
surface is NOT byte-identical to before the trigger: the content is
`ab/` (the trigger character remains) and the caret sits at 3, not at
its pre-trigger position 2. -/
theorem c8_counterexample :
    (runEvents (initSession { content := "ab".toList, caret := 2, block := .paragraph })
        [.typeTrigger (some rect0), .keydown .escape]).map
      (fun s => (s.surface.content, s.surface.caret, s.invoked, s.sessionOpen))
      = .ok ("ab/".toList, 3, [], false)
    ∧ ("ab/".toList ≠ "ab".toList ∧ (3 : Nat) ≠ 2) :=
  ⟨rfl, by decide⟩

/-- **C8 (amended).** Pressing Escape while the popup is open hides the
popup and closes the session without invoking any candidate, leaving
the text surface exactly as it was at the moment Escape was pressed
(trigger character and query remain in the document, caret unmoved). -/
theorem c8_escape_closes_without_restoring (s : SessionState)
    (hopen : s.sessionOpen = true) (hp : s.render.popup.isSome = true) :
    ∃ s', stepEv s (.keydown .escape) = .ok s'
      ∧ s'.surface = s.surface
      ∧ s'.invoked = s.invoked
      ∧ s'.sessionOpen = false
      ∧ s'.render.popup.map PopupState.visible = some false := by
  obtain ⟨srf, so, tp, q, ⟨ls0, pp⟩, inv⟩ := s
  simp only at hopen hp ⊢
  subst hopen
  obtain ⟨p, hpp⟩ := Option.isSome_iff_exists.mp hp
  subst hpp
  exact ⟨_, rfl, rfl, rfl, rfl, rfl⟩

/-- Witness for `c8_escape_closes_without_restoring` in the session
opened after `ab`: escape leaves `ab/` and closes everything. -/
theorem c8_escape_witness :
    ∃ s', stepEv c8WitState (.keydown .escape) = .ok s'
      ∧ s'.surface = c8WitState.surface
      ∧ s'.invoked = c8WitState.invoked
      ∧ s'.sessionOpen = false
      ∧ s'.render.popup.map PopupState.visible = some false :=
  c8_escape_closes_without_restoring c8WitState rfl rfl

/-- **C9 (code evaluated at the failing input).** When no caret
rectangle is available at `onStart`, rendering is skipped without
closing the session (the popup resource is simply never created) — but
the very next update event that does carry a rectangle dereferences the
unassigned popup (`popup[0].setProps`), a crash, contradicting "in no
event sequence does this cause a crash". -/
theorem c9_update_after_missing_rect_crashes :
    runEvents (initSession { content := [], caret := 0, block := .paragraph })
        [.typeTrigger none, .typeChar 'h' (some rect0)]
      = .error .popupUndefined
    ∧ renderOnStart (suggestionItems []) none
        = { listState := { items := suggestionItems [], selectedIndex := some 0 }
            popup := none } :=
  ⟨rfl, rfl⟩
